import Mathlib

/-!
Verification of the subiquity autoinstall pipeline specification.

This development shallowly embeds the parts of the subiquity code base that
the specification talks about:

* `subiquity/models/kernel_crash_dumps.py` — the kernel-crash-dumps data
  model and its `render` method;
* `subiquity/server/controllers/kernel_crash_dumps.py` — the section's
  JSON-schema fragment, together with a small executable JSON-Schema
  evaluator covering exactly the keywords that fragment uses;
* `subiquity/cloudinit.py` — version gates, bounded-wait probes and their
  timeout behaviour;
* `scripts/validate-autoinstall-user-data.py` — the validation entry point;
* the server's autoinstall selection / validation / two-phase load logic
  (`subiquity/server/server.py` is not part of the sources at hand, only its
  test suite is, so those operations are modelled from the specification and
  pinned on the behaviour the test suite demands).

File systems are modelled as association lists from path to contents;
subprocess and clock effects are passed in explicitly as data.
-/

namespace Subiquity

/-! ## JSON-like values

YAML/JSON documents are represented by `JVal`.  The documents exercised by
the claims only contain null, boolean, string, number and flat object
values, so arrays are not included in the universe. -/

inductive JVal where
  | null
  | bool (b : Bool)
  | str (s : String)
  | num (n : Int)
  | obj (fields : List (String × JVal))

/-! ## Python string ordering (`subiquity/cloudinit.py`)

Python compares `str` values lexicographically by code point.  The
cloud-init feature gates compare version strings with `>=` on `str`. -/

/-- Python `<` on lists of characters: lexicographic by code point. -/
def pyStrLtAux : List Char → List Char → Bool
  | [], [] => false
  | [], _ :: _ => true
  | _ :: _, [] => false
  | a :: as, b :: bs =>
    if a.val < b.val then true
    else if b.val < a.val then false
    else pyStrLtAux as bs

/-- Python `<` on strings. -/
def pyStrLt (a b : String) : Bool := pyStrLtAux a.data b.data

/-- Python `>=` on strings, i.e. `not (a < b)`. -/
def pyStrGe (a b : String) : Bool := !(pyStrLt a b)

/-- `cloud_init_version`: the code runs
`re.split("[-~]", sp.stdout)[0]` on the output of
`dpkg-query -W -f=${Version} cloud-init`, i.e. it keeps the prefix of the
stdout up to the first `-` or `~`.  The subprocess output is passed in as
`stdout`. -/
def cloud_init_version (stdout : String) : String :=
  ⟨stdout.data.takeWhile (fun c => c != '-' && c != '~')⟩

/-- `supports_format_json`: `cloud_init_version() >= "22.4"` under Python
string comparison. -/
def supports_format_json (stdout : String) : Bool :=
  pyStrGe (cloud_init_version stdout) "22.4"

/-- `supports_recoverable_errors`: `cloud_init_version() >= "23.4"` under
Python string comparison. -/
def supports_recoverable_errors (stdout : String) : Bool :=
  pyStrGe (cloud_init_version stdout) "23.4"

/-! ## Kernel-crash-dumps model (`subiquity/models/kernel_crash_dumps.py`) -/

/-- The `KernelCrashDumpsModel` class attributes: all default to Python
`None`. -/
structure KernelCrashDumpsModel where
  enabled : Option Bool
  memory_min : Option String
  memory_reserved : Option String
  crashkernel : Option String

/-- A Python `Optional[str]` embedded as a JSON value (`None` ↦ null). -/
def optStr : Option String → JVal
  | Option.none => JVal.null
  | some s => JVal.str s

/-- `KernelCrashDumpsModel.render`: if `enabled is None` the result is
`{"kernel-crash-dumps": {"enabled": None}}`; otherwise a dictionary holding
all four attributes, with Python `None` rendered as null. -/
def KernelCrashDumpsModel.render (m : KernelCrashDumpsModel) :
    List (String × List (String × JVal)) :=
  match m.enabled with
  | Option.none => [("kernel-crash-dumps", [("enabled", JVal.null)])]
  | some b =>
    [("kernel-crash-dumps",
      [("enabled", JVal.bool b),
       ("memory-min", optStr m.memory_min),
       ("memory-reserved", optStr m.memory_reserved),
       ("crashkernel", optStr m.crashkernel)])]

/-! ## A small JSON-Schema evaluator

`jsonschema.validate` is called on the kernel-crash-dumps schema fragment.
`JSchema` covers exactly the keywords that fragment uses: `type`,
`properties`, `required`, `oneOf`, `allOf`, `not` and
`additionalProperties`.  Absent keywords are represented by `Option.none`
(no constraint); `addProps = false` corresponds to
`"additionalProperties": False`.  Every keyword must hold for the instance
to validate; `oneOf` demands exactly one branch to validate. -/

inductive JTy where
  | boolean | string | object

/-- The `type` keyword. -/
def typeOk (ty : Option JTy) (v : JVal) : Bool :=
  match ty with
  | Option.none => true
  | some .boolean => match v with | .bool _ => true | _ => false
  | some .string => match v with | .str _ => true | _ => false
  | some .object => match v with | .obj _ => true | _ => false

inductive JSchema where
  | mk (ty : Option JTy) (properties : List (String × JSchema)) (required : List String)
       (oneOfS : Option (List JSchema)) (allOfS : Option (List JSchema))
       (notS : Option JSchema) (addProps : Bool)

mutual

/-- Evaluate a schema against an instance: the conjunction of all keywords
present.  `properties` and `required` constrain objects only. -/
def validate (s : JSchema) (v : JVal) : Bool :=
  match s with
  | .mk ty props req oneS allS notS addP =>
    typeOk ty v &&
    validateProps props v &&
    (match v with
     | .obj fields => req.all (fun k => (fields.lookup k).isSome)
     | _ => true) &&
    (match oneS with
     | Option.none => true
     | some ls => countValid ls v == 1) &&
    (match allS with
     | Option.none => true
     | some ls => allValid ls v) &&
    (match notS with
     | Option.none => true
     | some s2 => !(validate s2 v)) &&
    (if addP then true else
      match v with
      | .obj fields => fields.all (fun kv => props.any (fun p => p.1 == kv.1))
      | _ => true)

/-- The `properties` keyword: each declared property present in the object
must validate against its sub-schema. -/
def validateProps (props : List (String × JSchema)) (v : JVal) : Bool :=
  match props with
  | [] => true
  | (k, s) :: rest =>
    (match v with
     | .obj fields =>
       match fields.lookup k with
       | some w => validate s w
       | Option.none => true
     | _ => true) &&
    validateProps rest v

/-- How many schemas of a `oneOf` list the instance validates against. -/
def countValid (ls : List JSchema) (v : JVal) : Nat :=
  match ls with
  | [] => 0
  | s :: rest => (if validate s v then 1 else 0) + countValid rest v

/-- The `allOf` keyword. -/
def allValid (ls : List JSchema) (v : JVal) : Bool :=
  match ls with
  | [] => true
  | s :: rest => validate s v && allValid rest v

end

/-- `{"not": {"required": [k]}}` — the key `k` must be absent. -/
def notRequired (k : String) : JSchema :=
  .mk Option.none [] [] Option.none Option.none
    (some (.mk Option.none [] [k] Option.none Option.none Option.none true)) true

/-- The `properties` of `KernelCrashDumpsController.autoinstall_schema`. -/
def kcdProps : List (String × JSchema) :=
  [("enabled", .mk (some .boolean) [] [] Option.none Option.none Option.none true),
   ("memory-min", .mk (some .string) [] [] Option.none Option.none Option.none true),
   ("memory-reserved", .mk (some .string) [] [] Option.none Option.none Option.none true),
   ("crashkernel", .mk (some .string) [] [] Option.none Option.none Option.none true)]

/-- First `oneOf` branch:
`{"required": ["memory-min", "memory-reserved"], "not": {"required": ["crashkernel"]}}`. -/
def kcdBranchPair : JSchema :=
  .mk Option.none [] ["memory-min", "memory-reserved"] Option.none Option.none
    (some (.mk Option.none [] ["crashkernel"] Option.none Option.none Option.none true)) true

/-- Second `oneOf` branch:
`{"allOf": [{"not": {"required": ["memory-min"]}}, {"not": {"required": ["memory-reserved"]}}]}`. -/
def kcdBranchNoPair : JSchema :=
  .mk Option.none [] [] Option.none
    (some [notRequired "memory-min", notRequired "memory-reserved"]) Option.none true

/-- `KernelCrashDumpsController.autoinstall_schema`, transcribed from
`subiquity/server/controllers/kernel_crash_dumps.py`. -/
def kernelCrashDumpsSchema : JSchema :=
  .mk (some .object) kcdProps ["enabled"] (some [kcdBranchPair, kcdBranchNoPair])
    Option.none Option.none false

/-- Validate a section document (a dictionary) against the
kernel-crash-dumps schema fragment, as
`jsonschema.validate(config, KernelCrashDumpsController.autoinstall_schema)`
does. -/
def validateKernelCrashDumps (doc : List (String × JVal)) : Bool :=
  validate kernelCrashDumpsSchema (JVal.obj doc)



/-- Whether key `k` is present in document `doc`. -/
def hasKey (doc : List (String × JVal)) (k : String) : Bool :=
  (List.lookup k doc).isSome

/-- Mutual exclusivity of the memory pair and `crashkernel`, as enforced by
the schema's `oneOf`: either both memory keys are present without
`crashkernel`, or neither memory key is present. -/
def kcdMemoryExclusive (doc : List (String × JVal)) : Bool :=
  (hasKey doc "memory-min" && hasKey doc "memory-reserved" && !(hasKey doc "crashkernel")) ||
  (!(hasKey doc "memory-min") && !(hasKey doc "memory-reserved"))

/-- Per-property type checks of the kernel-crash-dumps fragment. -/
def kcdTypesOk (doc : List (String × JVal)) : Bool :=
  (match List.lookup "enabled" doc with
   | some w => typeOk (some .boolean) w
   | Option.none => true) &&
  ((match List.lookup "memory-min" doc with
   | some w => typeOk (some .string) w
   | Option.none => true) &&
  ((match List.lookup "memory-reserved" doc with
   | some w => typeOk (some .string) w
   | Option.none => true) &&
  (match List.lookup "crashkernel" doc with
   | some w => typeOk (some .string) w
   | Option.none => true)))

/-- Only the four declared keys appear in the document
(`"additionalProperties": False`). -/
def kcdKnownOnly (doc : List (String × JVal)) : Bool :=
  doc.all (fun kv => kcdProps.any (fun p => p.1 == kv.1))

/-- The exact validity condition of the kernel-crash-dumps schema fragment. -/
def kcdDocOk (doc : List (String × JVal)) : Bool :=
  kcdTypesOk doc && hasKey doc "enabled" && kcdMemoryExclusive doc && kcdKnownOnly doc

/-- The error condition the spec claims for the fragment: missing `enabled`,
an unknown key, or `crashkernel` together with a memory key.  (This is shown
below to disagree with the schema.) -/
def kcdSpecClaimedError (doc : List (String × JVal)) : Bool :=
  !(hasKey doc "enabled") || !(kcdKnownOnly doc) ||
  (hasKey doc "crashkernel" && (hasKey doc "memory-min" || hasKey doc "memory-reserved"))

/-! ## Bounded asynchronous waits (`subiquity/cloudinit.py`)

`arun_command` is modelled as data: `Option (Nat × CompletedProcess)` holds
the completion time (in seconds) and the result of the subprocess, or
`Option.none` when the command never completes.  `asyncio.wait_for coro t`
returns the result when the coroutine completes within `t` seconds and
raises `asyncio.TimeoutError` otherwise. -/

/-- The fields of a `subprocess.CompletedProcess` the embedded code reads.
`stdoutJson` carries the result of `json.loads(stdout)` (`Option.none` when
stdout does not decode to a JSON object): JSON decoding itself is not
re-implemented here. -/
structure CompletedProcess where
  stdout : String
  stderr : String
  stdoutJson : Option (List (String × JVal))

inductive AsyncExn where
  | timeoutError

/-- `asyncio.wait_for(coro, bound)` over the modelled subprocess. -/
def asyncio_wait_for (run : Option (Nat × α)) (bound : Nat) : Except AsyncExn α :=
  match run with
  | some (t, a) => if t ≤ bound then .ok a else .error .timeoutError
  | Option.none => .error .timeoutError

/-- Whether the modelled coroutine fails to complete within `bound` seconds. -/
def waitTimesOut (run : Option (Nat × α)) (bound : Nat) : Bool :=
  match run with
  | some (t, _) => bound < t
  | Option.none => true

/-! ### The `was/were unexpected` stderr pattern

`get_schema_failure_sources` runs
`re.search(r"\((?P<args>'[\w\-]+'(,\s'[\w\-]+')*)+ (?:was|were) unexpected\)", error)`
on the probe's stderr.  The pattern is deterministic (quoted tokens, comma
continuations and the closing literal start with distinct characters), so it
is embedded as a straight-line parser; the `+` on the named group captures
its last repetition, as in Python. -/

/-- The quote character `'`. -/
def quoteChar : Char := Char.ofNat 39

/-- A character of the class `[\w\-]` (ASCII fragment). -/
def isKeyChar (c : Char) : Bool := c.isAlphanum || c == '_' || c == '-'

/-- Match `'[\w\-]+'` at the head; returns (consumed, rest). -/
def parseQuoted (cs : List Char) : Option (List Char × List Char) :=
  match cs with
  | c :: rest =>
    if c == quoteChar then
      let w := rest.takeWhile isKeyChar
      let rest2 := rest.dropWhile isKeyChar
      if w.isEmpty then Option.none
      else
        match rest2 with
        | c2 :: rest3 =>
          if c2 == quoteChar then some (c :: (w ++ [c2]), rest3) else Option.none
        | [] => Option.none
    else Option.none
  | [] => Option.none

/-- Match `,\s'[\w\-]+'` at the head; returns (consumed, rest). -/
def parseCommaQuoted (cs : List Char) : Option (List Char × List Char) :=
  match cs with
  | c :: s :: rest =>
    if c == ',' && s.isWhitespace then
      match parseQuoted rest with
      | some (q, rest2) => some (c :: s :: q, rest2)
      | Option.none => Option.none
    else Option.none
  | _ => Option.none

/-- Greedily match `(,\s'[\w\-]+')*`; the fuel bounds the recursion. -/
def parseCommaListAux (fuel : Nat) (acc : List Char) (cs : List Char) :
    List Char × List Char :=
  match fuel with
  | 0 => (acc, cs)
  | fuel + 1 =>
    match parseCommaQuoted cs with
    | some (tok, rest) => parseCommaListAux fuel (acc ++ tok) rest
    | Option.none => (acc, cs)

/-- One repetition of the named group `'[\w\-]+'(,\s'[\w\-]+')*`. -/
def parseArgsGroup (cs : List Char) : Option (List Char × List Char) :=
  match parseQuoted cs with
  | some (q, rest) =>
    match parseCommaListAux rest.length [] rest with
    | (more, rest2) => some (q ++ more, rest2)
  | Option.none => Option.none

/-- Greedy `(group)+`, keeping the capture of the last repetition. -/
def parseArgsPlusAux (fuel : Nat) (last : List Char) (cs : List Char) :
    List Char × List Char :=
  match fuel with
  | 0 => (last, cs)
  | fuel + 1 =>
    match parseArgsGroup cs with
    | some (g, rest) => parseArgsPlusAux fuel g rest
    | Option.none => (last, cs)

/-- Match a literal character sequence at the head, returning the rest. -/
def dropLiteral (lit : List Char) (cs : List Char) : Option (List Char) :=
  match lit, cs with
  | [], rest => some rest
  | l :: ls, c :: rest => if c == l then dropLiteral ls rest else Option.none
  | _ :: _, [] => Option.none

/-- Match the whole pattern anchored at the head of `cs`; returns the
`args` capture. -/
def matchUnexpectedAt (cs : List Char) : Option (List Char) :=
  match cs with
  | c :: rest =>
    if c == '(' then
      match parseArgsGroup rest with
      | some (g1, rest1) =>
        match parseArgsPlusAux rest1.length g1 rest1 with
        | (g, rest2) =>
          match dropLiteral " was unexpected)".data rest2 with
          | some _ => some g
          | Option.none =>
            match dropLiteral " were unexpected)".data rest2 with
            | some _ => some g
            | Option.none => Option.none
      | Option.none => Option.none
    else Option.none
  | [] => Option.none

/-- `re.search`: try every start position left to right. -/
def searchUnexpected (cs : List Char) : Option (List Char) :=
  match matchUnexpectedAt cs with
  | some g => some g
  | Option.none =>
    match cs with
    | [] => Option.none
    | _ :: rest => searchUnexpected rest

/-- Python `str.strip("'")`: drop every leading and trailing quote. -/
def pyStripQuote (s : String) : String :=
  ⟨((s.data.dropWhile (fun c => c == quoteChar)).reverse.dropWhile
      (fun c => c == quoteChar)).reverse⟩

/-- `get_schema_failure_sources`: run `cloud-init schema --system` under a
10-second `asyncio.wait_for`; on `asyncio.TimeoutError` return `[]`;
otherwise search stderr for the pattern, split the capture on `", "` and
strip quotes.  No exception escapes except through the `Except` layer, which
is shown below to always be `.ok`. -/
def get_schema_failure_sources (run : Option (Nat × CompletedProcess)) :
    Except AsyncExn (List String) :=
  match asyncio_wait_for run 10 with
  | .error .timeoutError => .ok []
  | .ok sp =>
    match searchUnexpected sp.stderr.data with
    | Option.none => .ok []
    | some args => .ok (((String.mk args).splitOn ", ").map pyStripQuote)

/-- `read_json_extended_status` on the decoded JSON of stdout:
`status.get("extended_status", status.get("status", None))`, or `None` when
decoding failed. -/
def read_json_extended_status (stdoutJson : Option (List (String × JVal))) :
    Option JVal :=
  match stdoutJson with
  | Option.none => Option.none
  | some status =>
    match List.lookup "extended_status" status with
    | some v => some v
    | Option.none => List.lookup "status" status

/-- Python `str.split()`: split on whitespace runs, dropping empty pieces. -/
def pySplitWhitespace (s : String) : List String :=
  ((s.data.splitOnP (fun c => c.isWhitespace)).filter
    (fun w => !w.isEmpty)).map (fun w => String.mk w)

/-- The loop of `read_legacy_status`: the second whitespace-separated token
of the first `status:`-prefixed line that has one (an `IndexError` on a
line with no second token is swallowed and the loop continues). -/
def readLegacyStatusLines : List String → Option String
  | [] => Option.none
  | line :: rest =>
    if line.startsWith "status:" then
      match pySplitWhitespace line with
      | _ :: second :: _ => some second
      | _ => readLegacyStatusLines rest
    else readLegacyStatusLines rest

/-- `read_legacy_status` (`splitlines` modelled as splitting on newline). -/
def read_legacy_status (stdout : String) : Option String :=
  readLegacyStatusLines (stdout.splitOn "\n")

/-- `cloud_init_status_wait`: run `cloud-init status --wait` (plus
`--format=json` when the version gate allows) under a 600-second
`asyncio.wait_for`; on `asyncio.TimeoutError` return `(False, "timeout")`,
otherwise `(True, best available status)`.  `versionStdout` models the
`dpkg-query` output feeding `supports_format_json`. -/
def cloud_init_status_wait (versionStdout : String)
    (run : Option (Nat × CompletedProcess)) : Except AsyncExn (Bool × Option JVal) :=
  match asyncio_wait_for run 600 with
  | .error .timeoutError => .ok (false, some (JVal.str "timeout"))
  | .ok sp =>
    if supports_format_json versionStdout then
      .ok (true, read_json_extended_status sp.stdoutJson)
    else
      .ok (true, (read_legacy_status sp.stdout).map JVal.str)

/-! ## The autoinstall server operations

`subiquity/server/server.py` itself is not among the sources at hand — only
its test suite `subiquity/server/tests/test_server.py` is — so the
operations below are modelled from the specification, with their behaviour
pinned to what that test suite asserts.  A file system is an association
list from path to file contents; a freshly written entry is prepended and
shadows any older entry for the same path. -/

abbrev FileSystem := List (String × String)

/-- `root_autoinstall_path`: the canonical copy at the root of the target
file system. -/
def root_autoinstall_path : String := "autoinstall.yaml"

/-- `cloud_autoinstall_path`: the copy supplied by cloud-init. -/
def cloud_autoinstall_path : String := "run/subiquity/autoinstall.yaml"

/-- `iso_autoinstall_path`: the copy baked into the installation medium. -/
def iso_autoinstall_path : String := "cdrom/autoinstall.yaml"

/-- `os.path.exists`. -/
def pathExists (fs : FileSystem) (p : String) : Bool :=
  (List.lookup p fs).isSome

/-- Write `contents` at path `p`. -/
def writeFile (fs : FileSystem) (p contents : String) : FileSystem :=
  (p, contents) :: fs

/-- Copy the file at `src` over `dst` when `src` exists. -/
def copyFile (fs : FileSystem) (src dst : String) : FileSystem :=
  match List.lookup src fs with
  | some c => writeFile fs dst c
  | Option.none => fs

/-- The candidate locations in strict precedence order: explicit argument,
kernel-cmdline path, root path, cloud-init path, iso path. -/
def candidateLocations (explicit kernelPath : Option String) : List (Option String) :=
  [explicit, kernelPath, some root_autoinstall_path, some cloud_autoinstall_path,
   some iso_autoinstall_path]

/-- The first location that exists (`for loc in locations: if exists: break`). -/
def firstExisting (locs : List (Option String)) (fs : FileSystem) : Option String :=
  match locs with
  | [] => Option.none
  | Option.none :: rest => firstExisting rest fs
  | some p :: rest => if pathExists fs p then some p else firstExisting rest fs

/-- The candidates that exist, in precedence order. -/
def presentCandidates (explicit kernelPath : Option String) (fs : FileSystem) :
    List String :=
  ((candidateLocations explicit kernelPath).filterMap id).filter
    (fun p => pathExists fs p)

/-- Modelled from the spec: the selection step of
`SubiquityServer.select_autoinstall` once autoinstall is known to be
enabled.  The winning candidate's contents are copied into the root path
(the canonical on-root copy, which the test suite shows also happens for
the explicit and kernel-cmdline winners) and the root path is returned. -/
def selectFrom (explicit : Option String) (kernel_cmdline : List (String × String))
    (fs : FileSystem) : Option String × FileSystem :=
  match firstExisting
      (candidateLocations explicit (List.lookup "subiquity.autoinstallpath" kernel_cmdline))
      fs with
  | Option.none => (Option.none, fs)
  | some loc => (some root_autoinstall_path, copyFile fs loc root_autoinstall_path)

/-- Modelled from the spec: `SubiquityServer.select_autoinstall`.  An empty
explicit override means autoinstall is disabled (`None` before anything
else); a non-empty explicit override that does not exist is fatal; otherwise
the first existing candidate wins. -/
def select_autoinstall (explicit : Option String)
    (kernel_cmdline : List (String × String)) (fs : FileSystem) :
    Except String (Option String × FileSystem) :=
  match explicit with
  | some p =>
    if p = "" then .ok (Option.none, fs)
    else if pathExists fs p then .ok (selectFrom (some p) kernel_cmdline fs)
    else .error ("Autoinstall argument " ++ p ++ " not found")
  | Option.none => .ok (selectFrom Option.none kernel_cmdline fs)

/-! ## Strict top-level key validation -/

/-- `AutoinstallValidationError` from `subiquity/server/autoinstall.py`. -/
structure AutoinstallValidationError where
  sectionName : String
  message : String

/-- Python `repr` of a plain string. -/
def pyRepr (s : String) : String := "'" ++ s ++ "'"

/-- The constructor logic of `AutoinstallValidationError`: without a message
the default is `f"Malformed autoinstall in {section!r} section"`. -/
def AutoinstallValidationError.make (sectionName : String) (message : Option String) :
    AutoinstallValidationError :=
  match message with
  | Option.none => ⟨sectionName, "Malformed autoinstall in " ++ pyRepr sectionName ++ " section"⟩
  | some m => ⟨sectionName, m⟩

/-- Modelled from the spec: the top-level keys of the base schema (the
reserved keys every composite schema declares). -/
def baseSchemaKeys : List String := ["version", "interactive-sections", "early-commands"]

/-- A strict-mode validation failure: the aggregate error and the top-level
keys it names. -/
structure StrictKeysFailure where
  error : AutoinstallValidationError
  unrecognizedKeys : List String

/-- The document's declared `version` (modelled default 1). -/
def configVersion (config : List (String × JVal)) : Int :=
  match List.lookup "version" config with
  | some (.num n) => n
  | _ => 1

/-- Modelled from the spec: the unknown-top-level-key policy of
`SubiquityServer.validate_autoinstall`.  Keys not declared by the composite
schema (base keys plus every registered section's key) are tolerated with a
logged warning when `version` < 2 and aggregated into one
`AutoinstallValidationError` naming every unrecognized key when
`version` ≥ 2.  On success the returned list holds the warnings that were
logged. -/
def validate_autoinstall (config : List (String × JVal)) (sections : List String) :
    Except StrictKeysFailure (List String) :=
  let known := baseSchemaKeys ++ sections
  let unrecognized := (config.map Prod.fst).filter (fun k => !(known.contains k))
  if unrecognized.isEmpty then .ok []
  else if configVersion config < 2 then
    .ok ["Unrecognized top-level key(s): " ++ String.intercalate ", " unrecognized]
  else
    .error ⟨AutoinstallValidationError.make "top-level keys"
      (some ("Unrecognized top-level key(s): " ++ String.intercalate ", " unrecognized)),
      unrecognized⟩

/-- Modelled from the spec: `SubiquityServer._strip_controller_keys` removes
from the document exactly the top-level keys owned by currently-registered
section controllers. -/
def strip_controller_keys (config : List (String × JVal)) (sections : List String) :
    List (String × JVal) :=
  config.filter (fun kv => !(sections.contains kv.1))

/-! ## Two-phase load and early commands -/

/-- Parsed autoinstall documents on disk: path ↦ parsed mapping (the YAML
layer is the identity in this model). -/
abbrev DocFileSystem := List (String × List (String × JVal))

/-- Modelled from the spec: each pass of
`SubiquityServer.load_autoinstall_config` re-reads and re-parses the
document at the selected path from disk into the in-memory
`autoinstall_config` (the pass flag selects which controllers consume it,
not what is read). -/
def load_autoinstall_config (_onlyEarly : Bool) (fs : DocFileSystem) (path : String) :
    Option (List (String × JVal)) :=
  List.lookup path fs

/-- An early command of the shape `sed -i -e '$ a key: value' path`: append
one key to the on-disk document at `path`. -/
def runAppendCommand (fs : DocFileSystem) (path k : String) (v : JVal) : DocFileSystem :=
  match List.lookup path fs with
  | some d => (path, d ++ [(k, v)]) :: fs
  | Option.none => fs

/-! ## The validation entry point (`scripts/validate-autoinstall-user-data.py`) -/

def SUCCESS_MSG : String := "Success: The provided autoinstall config validated successfully"

def FAILURE_MSG : String := "Failure: The provided autoinstall config failed validation"

/-- The input as the script reads it: its lines (`data.splitlines()`) and
the outcome of `yaml.safe_load(data)` (`.error` holds the formatted parser
exception).  Error strings carry the `f"{type(exc).__name__}: {exc}"`
format `main` prints. -/
structure UserDataInput where
  lines : List String
  yamlLoad : Except String (List (String × JVal))

/-- `parse_cloud_config`: require the first line to be `#cloud-config`
(an empty input raises `IndexError` on `splitlines()[0]`), then extract the
top-level `autoinstall` key from the YAML load. -/
def parse_cloud_config (inp : UserDataInput) : Except String JVal :=
  match inp.lines with
  | [] => .error "IndexError: list index out of range"
  | first :: _ =>
    if first != "#cloud-config" then
      .error ("AssertionError: Expected data to be wrapped in cloud-config " ++
        "but first line is not '#cloud-config'. Try passing --no-expect-cloudconfig.")
    else
      match inp.yamlLoad with
      | .error e => .error e
      | .ok cc =>
        match List.lookup "autoinstall" cc with
        | some ai => .ok ai
        | Option.none =>
          .error ("AssertionError: Expected data to be wrapped in cloud-config " ++
            "but could not find top level 'autoinstall' key.")

/-- `verify_autoinstall`: run both load phases; on any exception print it
(and, at verbosity > 2, a traceback) followed by the failure sentinel and
return 1; otherwise print the success sentinel and return 0.  The result is
(printed lines, exit status). -/
def verify_autoinstall (earlyLoad fullLoad : Except String Unit) (verbosity : Nat) :
    List String × Nat :=
  match earlyLoad with
  | .error e => ([e] ++ (if verbosity > 2 then ["Traceback"] else []) ++ [FAILURE_MSG], 1)
  | .ok _ =>
    match fullLoad with
    | .error e => ([e] ++ (if verbosity > 2 then ["Traceback"] else []) ++ [FAILURE_MSG], 1)
    | .ok _ => ([SUCCESS_MSG], 0)

/-- `main` of the script: the `--check-link` assertion (uncaught when it
fails: the `.error` of the outer layer), cloud-config unwrapping when
expected (a failure prints the cause and the failure sentinel and returns
1), then both load phases on the extracted data. -/
def scriptMain (expect_cloudconfig check_link linkPresent : Bool)
    (inp : UserDataInput) (earlyLoad fullLoad : Except String Unit)
    (verbosity : Nat) : Except String (List String × Nat) :=
  if check_link && !linkPresent then
    .error "AssertionError: Documentation link missing from user data"
  else if expect_cloudconfig then
    match parse_cloud_config inp with
    | .error e => .ok ([e, FAILURE_MSG], 1)
    | .ok _ => .ok (verify_autoinstall earlyLoad fullLoad verbosity)
  else .ok (verify_autoinstall earlyLoad fullLoad verbosity)

/-- The file system of the `test_arg_wins` scenario: an explicit argument
file plus root, cloud and iso candidates. -/
def argWinsFs : FileSystem :=
  [("arg.autoinstall.yaml", "arg"), (root_autoinstall_path, "root"),
   (cloud_autoinstall_path, "cloud"), (iso_autoinstall_path, "iso")]

/-- The file system of the `test_cloud_wins` scenario: only the cloud and
iso candidates exist. -/
def cloudWinsFs : FileSystem :=
  [(cloud_autoinstall_path, "cloud"), (iso_autoinstall_path, "iso")]

/-!
## Theorems

Helper lemmas first, then the claim theorems.
-/

theorem validate_leaf (ty : Option JTy) (v : JVal) :
    validate (.mk ty [] [] Option.none Option.none Option.none true) v = typeOk ty v := by
  cases v <;> simp [validate, validateProps]

theorem validate_reqOnly (req : List String) (doc : List (String × JVal)) :
    validate (.mk Option.none [] req Option.none Option.none Option.none true) (.obj doc) =
      req.all (fun k => (List.lookup k doc).isSome) := by
  simp [validate, validateProps, typeOk]

theorem validate_notRequired (k : String) (doc : List (String × JVal)) :
    validate (notRequired k) (.obj doc) = !(hasKey doc k) := by
  rw [notRequired]
  simp [validate, validateProps, typeOk, validate_reqOnly, hasKey]

theorem validate_branchPair (doc : List (String × JVal)) :
    validate kcdBranchPair (.obj doc) =
      (hasKey doc "memory-min" && hasKey doc "memory-reserved" && !(hasKey doc "crashkernel")) := by
  rw [kcdBranchPair]
  simp [validate, validateProps, typeOk, validate_reqOnly, hasKey, Bool.and_assoc]

theorem validate_branchNoPair (doc : List (String × JVal)) :
    validate kcdBranchNoPair (.obj doc) =
      (!(hasKey doc "memory-min") && !(hasKey doc "memory-reserved")) := by
  rw [kcdBranchNoPair]
  simp [validate, validateProps, typeOk, allValid, validate_notRequired, hasKey]

theorem countValid_kcd (doc : List (String × JVal)) :
    (countValid [kcdBranchPair, kcdBranchNoPair] (JVal.obj doc) == 1) =
      kcdMemoryExclusive doc := by
  simp only [countValid, validate_branchPair, validate_branchNoPair, kcdMemoryExclusive]
  cases hasKey doc "memory-min" <;> cases hasKey doc "memory-reserved" <;>
    cases hasKey doc "crashkernel" <;> simp

theorem validateProps_kcd (doc : List (String × JVal)) :
    validateProps kcdProps (JVal.obj doc) = kcdTypesOk doc := by
  rw [kcdProps]
  simp only [validateProps, validate_leaf, kcdTypesOk, Bool.and_true]

theorem validateKernelCrashDumps_eq (doc : List (String × JVal)) :
    validateKernelCrashDumps doc = kcdDocOk doc := by
  rw [validateKernelCrashDumps, kernelCrashDumpsSchema]
  simp only [validate, validateProps_kcd, countValid_kcd, typeOk, List.all_cons,
    List.all_nil, Bool.and_true, Bool.true_and, kcdDocOk, kcdKnownOnly, hasKey]
  cases kcdTypesOk doc <;> cases (List.lookup "enabled" doc).isSome <;>
    cases kcdMemoryExclusive doc <;> simp

/-- Claim C7, counterexample.  The document `{enabled: true, memory-min: ""}`
has the `enabled` key, only known keys, and no `crashkernel` at all, so the
claimed "if and only if" condition says it validates; the schema rejects it,
because the `oneOf` forbids `memory-min` without `memory-reserved`. -/
theorem kernel_crash_dumps_schema_iff_fails :
    validateKernelCrashDumps [("enabled", JVal.bool true), ("memory-min", JVal.str "")] = false ∧
    kcdSpecClaimedError [("enabled", JVal.bool true), ("memory-min", JVal.str "")] = false := by
  exact ⟨by decide, by decide⟩

/-- Claim C7 (amended).  A section document fails the kernel-crash-dumps
schema fragment if and only if it lacks `enabled`, contains an unknown key,
contains a known key with a value of the wrong type, or breaks the memory
rule: `memory-min`/`memory-reserved` must appear either both together and
without `crashkernel`, or not at all.  In particular
`{enabled: true, crashkernel: ""}` and
`{enabled: true, memory-min: "", memory-reserved: ""}` validate, while
`{crashkernel: ""}` and the four-key document do not. -/
theorem kernel_crash_dumps_schema_mutual_exclusivity :
    (∀ doc : List (String × JVal), validateKernelCrashDumps doc = kcdDocOk doc) ∧
    validateKernelCrashDumps [("enabled", JVal.bool true), ("crashkernel", JVal.str "")] = true ∧
    validateKernelCrashDumps
      [("enabled", JVal.bool true), ("memory-min", JVal.str ""),
       ("memory-reserved", JVal.str "")] = true ∧
    validateKernelCrashDumps [("crashkernel", JVal.str "")] = false ∧
    validateKernelCrashDumps
      [("enabled", JVal.bool true), ("crashkernel", JVal.str ""),
       ("memory-min", JVal.str ""), ("memory-reserved", JVal.str "")] = false := by
  exact ⟨validateKernelCrashDumps_eq, by decide, by decide, by decide, by decide⟩

/-- Claim C3, counterexample.  For a model with `enabled=True` and
`crashkernel="4G:512M"`, the rendered `kernel-crash-dumps` section does
contain the `memory-min` and `memory-reserved` keys (mapped to null), contrary
to the claim that they are absent. -/
theorem kernel_crash_dumps_render_includes_memory_keys :
    List.lookup "memory-min"
      ((List.lookup "kernel-crash-dumps"
        (KernelCrashDumpsModel.render
          ⟨some true, Option.none, Option.none, some "4G:512M"⟩)).getD []) =
      some JVal.null ∧
    List.lookup "memory-reserved"
      ((List.lookup "kernel-crash-dumps"
        (KernelCrashDumpsModel.render
          ⟨some true, Option.none, Option.none, some "4G:512M"⟩)).getD []) =
      some JVal.null := by
  exact ⟨rfl, rfl⟩

/-- Claim C3 (amended).  With `enabled=None` the model renders exactly
`{"kernel-crash-dumps": {"enabled": None}}`, whatever the other fields hold;
with `enabled=True` and `crashkernel="4G:512M"` it renders `enabled` and
`crashkernel` together with `memory-min` and `memory-reserved` as explicit
nulls (the model renders all four keys; only the controller's
`make_autoinstall` omits the memory pair). -/
theorem kernel_crash_dumps_render_round_trip :
    (∀ mm mr ck, KernelCrashDumpsModel.render ⟨Option.none, mm, mr, ck⟩ =
      [("kernel-crash-dumps", [("enabled", JVal.null)])]) ∧
    KernelCrashDumpsModel.render ⟨some true, Option.none, Option.none, some "4G:512M"⟩ =
      [("kernel-crash-dumps",
        [("enabled", JVal.bool true), ("memory-min", JVal.null),
         ("memory-reserved", JVal.null), ("crashkernel", JVal.str "4G:512M")])] := by
  exact ⟨fun _ _ _ => rfl, rfl⟩

/-- Claim C10.  The cloud-init feature gates compare version strings with
Python string ordering, which is lexicographic by code point, not numeric:
for the version string `9.1` (numerically far below 22.4) both
`supports_format_json` and `supports_recoverable_errors` return `True`. -/
theorem cloud_init_version_gates_are_lexicographic :
    cloud_init_version "9.1-0ubuntu1" = "9.1" ∧
    supports_format_json "9.1-0ubuntu1" = true ∧
    supports_recoverable_errors "9.1-0ubuntu1" = true ∧
    pyStrGe "9.1" "22.4" = true ∧
    (9 : Nat) < 22 := by
  exact ⟨by decide, by decide, by decide, by decide, by decide⟩


/-- Claim C9.  `get_schema_failure_sources` waits at most 10 seconds for the
`cloud-init schema --system` probe and on timeout returns the empty list;
`cloud_init_status_wait` waits at most 600 seconds for
`cloud-init status --wait` and on timeout returns `(False, "timeout")`;
neither function lets the timeout exception escape: both always return an
`.ok` value. -/
theorem external_probe_timeout_soft_failure :
    (∀ run : Option (Nat × CompletedProcess), waitTimesOut run 10 = true →
      get_schema_failure_sources run = .ok []) ∧
    (∀ (v : String) (run : Option (Nat × CompletedProcess)),
      waitTimesOut run 600 = true →
      cloud_init_status_wait v run = .ok (false, some (JVal.str "timeout"))) ∧
    (∀ run : Option (Nat × CompletedProcess),
      ∃ r, get_schema_failure_sources run = .ok r) ∧
    (∀ (v : String) (run : Option (Nat × CompletedProcess)),
      ∃ r, cloud_init_status_wait v run = .ok r) := by
  refine ⟨?_, ?_, ?_, ?_⟩
  · intro run h
    match run with
    | Option.none => rfl
    | some (t, sp) =>
      simp only [waitTimesOut, decide_eq_true_eq] at h
      simp [get_schema_failure_sources, asyncio_wait_for, Nat.not_le.mpr h]
  · intro v run h
    match run with
    | Option.none => rfl
    | some (t, sp) =>
      simp only [waitTimesOut, decide_eq_true_eq] at h
      simp [cloud_init_status_wait, asyncio_wait_for, Nat.not_le.mpr h]
  · intro run
    match run with
    | Option.none => exact ⟨[], rfl⟩
    | some (t, sp) =>
      by_cases h : t ≤ 10
      · simp only [get_schema_failure_sources, asyncio_wait_for, if_pos h]
        match searchUnexpected sp.stderr.data with
        | Option.none => exact ⟨[], rfl⟩
        | some args => exact ⟨_, rfl⟩
      · exact ⟨[], by simp [get_schema_failure_sources, asyncio_wait_for, if_neg h]⟩
  · intro v run
    match run with
    | Option.none => exact ⟨(false, some (JVal.str "timeout")), rfl⟩
    | some (t, sp) =>
      by_cases h : t ≤ 600
      · simp only [cloud_init_status_wait, asyncio_wait_for, if_pos h]
        by_cases hf : supports_format_json v = true
        · exact ⟨(true, read_json_extended_status sp.stdoutJson), by simp [hf]⟩
        · exact ⟨(true, Option.map JVal.str (read_legacy_status sp.stdout)), by simp [hf]⟩
      · exact ⟨(false, some (JVal.str "timeout")),
          by simp [cloud_init_status_wait, asyncio_wait_for, if_neg h]⟩


theorem firstExisting_eq (locs : List (Option String)) (fs : FileSystem) :
    firstExisting locs fs =
      ((locs.filterMap id).filter (fun p => pathExists fs p)).head? := by
  induction locs with
  | nil => rfl
  | cons o rest ih =>
    cases o with
    | none => simpa [firstExisting] using ih
    | some p =>
      by_cases h : pathExists fs p
      · simp [firstExisting, h, List.filter_cons]
      · simp [firstExisting, h, List.filter_cons, ih]

theorem lookup_copyFile (fs : FileSystem) (src dst : String)
    (h : pathExists fs src = true) :
    List.lookup dst (copyFile fs src dst) = List.lookup src fs := by
  unfold pathExists at h
  cases hl : List.lookup src fs with
  | none => rw [hl] at h; simp at h
  | some c => simp [copyFile, hl, writeFile, List.lookup]

theorem presentCandidates_head_exists {explicit kernelPath : Option String}
    {fs : FileSystem} {loc : String}
    (h : (presentCandidates explicit kernelPath fs).head? = some loc) :
    pathExists fs loc = true := by
  unfold presentCandidates at h
  rcases hfl : ((candidateLocations explicit kernelPath).filterMap id).filter
      (fun p => pathExists fs p) with _ | ⟨a, t⟩
  · rw [hfl] at h; simp at h
  · rw [hfl] at h
    simp only [List.head?_cons, Option.some.injEq] at h
    have hmem : a ∈ ((candidateLocations explicit kernelPath).filterMap id).filter
        (fun p => pathExists fs p) := by
      rw [hfl]; exact List.mem_cons_self _ _
    have ha := (List.mem_filter.mp hmem).2
    rw [← h]
    exact ha

theorem selectFrom_wins (explicit : Option String) (kc : List (String × String))
    (fs : FileSystem) (loc : String)
    (hwin : (presentCandidates explicit (List.lookup "subiquity.autoinstallpath" kc)
        fs).head? = some loc) :
    selectFrom explicit kc fs =
      (some root_autoinstall_path, copyFile fs loc root_autoinstall_path) := by
  unfold selectFrom
  rw [firstExisting_eq]
  unfold presentCandidates at hwin
  rw [hwin]

/-- Claim C1, counterexample.  In the `test_arg_wins` scenario the
highest-priority present candidate is the explicit argument file
`arg.autoinstall.yaml`, yet `select_autoinstall` returns the root path
`autoinstall.yaml` — a different path — after copying the winner's
contents there. -/
theorem select_autoinstall_returns_canonical_not_winner :
    select_autoinstall (some "arg.autoinstall.yaml") [] argWinsFs =
      .ok (some root_autoinstall_path,
        copyFile argWinsFs "arg.autoinstall.yaml" root_autoinstall_path) ∧
    (presentCandidates (some "arg.autoinstall.yaml")
        (List.lookup "subiquity.autoinstallpath" []) argWinsFs).head? =
      some "arg.autoinstall.yaml" ∧
    root_autoinstall_path ≠ "arg.autoinstall.yaml" ∧
    List.lookup root_autoinstall_path
      (copyFile argWinsFs "arg.autoinstall.yaml" root_autoinstall_path) = some "arg" := by
  refine ⟨rfl, by decide, by decide, rfl⟩

/-- Claim C1 (amended).  Whenever autoinstall is not disabled, a supplied
explicit path exists, and some candidate exists, `select_autoinstall`
determines the winner by strict precedence (the head of the present
candidates in precedence order: explicit > kernel-cmdline > root > cloud >
iso), copies the winner's contents into the root-filesystem path and
returns that canonical root path, whose contents then equal the winning
candidate's contents. -/
theorem select_autoinstall_canonical_precedence (explicit : Option String)
    (kc : List (String × String)) (fs : FileSystem) (loc : String)
    (hdis : explicit ≠ some "")
    (hexp : ∀ p, explicit = some p → pathExists fs p = true)
    (hwin : (presentCandidates explicit (List.lookup "subiquity.autoinstallpath" kc)
        fs).head? = some loc) :
    select_autoinstall explicit kc fs =
      .ok (some root_autoinstall_path, copyFile fs loc root_autoinstall_path) ∧
    List.lookup root_autoinstall_path (copyFile fs loc root_autoinstall_path) =
      List.lookup loc fs := by
  have hploc : pathExists fs loc = true := presentCandidates_head_exists hwin
  refine ⟨?_, lookup_copyFile fs loc root_autoinstall_path hploc⟩
  cases hex : explicit with
  | none =>
    rw [hex] at hwin
    simp only [select_autoinstall]
    rw [selectFrom_wins Option.none kc fs loc hwin]
  | some p =>
    have hp : p ≠ "" := by
      intro e
      rw [e] at hex
      exact hdis hex
    rw [hex] at hwin
    simp only [select_autoinstall]
    rw [if_neg hp, if_pos (hexp p hex), selectFrom_wins (some p) kc fs loc hwin]

/-- Witness for claim C1's amended theorem: the `test_cloud_wins` scenario,
where only the cloud and iso candidates exist, the cloud copy wins, and the
root path is returned holding the cloud contents. -/
theorem select_autoinstall_canonical_precedence_witness :
    select_autoinstall Option.none [] cloudWinsFs =
      .ok (some root_autoinstall_path,
        copyFile cloudWinsFs cloud_autoinstall_path root_autoinstall_path) ∧
    List.lookup root_autoinstall_path
      (copyFile cloudWinsFs cloud_autoinstall_path root_autoinstall_path) =
      List.lookup cloud_autoinstall_path cloudWinsFs :=
  select_autoinstall_canonical_precedence Option.none [] cloudWinsFs cloud_autoinstall_path
    (by decide) (fun p h => Option.noConfusion h) (by decide)

/-- Claim C6.  When the explicit autoinstall override is the empty string,
`select_autoinstall` returns `None` and leaves the file system untouched,
whatever other candidate files exist on any file system and whatever the
kernel command line holds. -/
theorem select_autoinstall_disabled_short_circuit :
    ∀ (kc : List (String × String)) (fs : FileSystem),
      select_autoinstall (some "") kc fs = .ok (Option.none, fs) := by
  intro kc fs
  simp [select_autoinstall]


theorem strip_lookup (config : List (String × JVal)) (sections : List String) (k : String) :
    List.lookup k (strip_controller_keys config sections) =
      (if sections.contains k then Option.none else List.lookup k config) := by
  induction config with
  | nil => simp [strip_controller_keys]
  | cons kv rest ih =>
    obtain ⟨k', v⟩ := kv
    simp only [strip_controller_keys, List.filter_cons] at ih ⊢
    by_cases hc : sections.contains k' = true
    · rw [hc]
      simp only [Bool.not_true, Bool.false_eq_true, if_false]
      rw [ih]
      by_cases hck : sections.contains k = true
      · rw [if_pos hck, if_pos hck]
      · rw [if_neg hck, if_neg hck]
        have hne : (k == k') = false := by
          refine beq_eq_false_iff_ne.mpr ?_
          intro e
          rw [← e] at hc
          exact hck hc
        simp only [List.lookup, hne]
    · simp only [Bool.not_eq_true] at hc
      rw [hc]
      simp only [Bool.not_false, if_true]
      by_cases hbeq : (k == k') = true
      · have hck : sections.contains k = false := by
          rw [← eq_of_beq hbeq] at hc
          exact hc
        simp only [List.lookup, hbeq, hck, Bool.false_eq_true, if_false]
      · have hbf : (k == k') = false := by
          simp only [Bool.not_eq_true] at hbeq
          exact hbeq
        simp only [List.lookup, hbf]
        rw [ih]

theorem strip_mem (config : List (String × JVal)) (sections : List String)
    (kv : String × JVal) :
    kv ∈ strip_controller_keys config sections ↔
      kv ∈ config ∧ sections.contains kv.1 = false := by
  simp [strip_controller_keys, List.mem_filter]

/-- Claim C5.  For every document, `_strip_controller_keys` removes exactly
the top-level keys owned by currently-registered section controllers: a
section-owned key looks up to nothing afterwards, every other key — version,
interactive-sections, early-commands, or any unrecognized key — keeps its
value, and an entry survives the stripping exactly when its key is owned by
no registered section. -/
theorem strip_controller_keys_selectivity :
    (∀ (config : List (String × JVal)) (sections : List String) (k : String),
      List.lookup k (strip_controller_keys config sections) =
        if sections.contains k then Option.none else List.lookup k config) ∧
    (∀ (config : List (String × JVal)) (sections : List String) (kv : String × JVal),
      kv ∈ strip_controller_keys config sections ↔
        kv ∈ config ∧ sections.contains kv.1 = false) :=
  ⟨strip_lookup, strip_mem⟩

/-- Claim C2.  For the document `{version: 1, apt: "x", literally-anything:
"y"}` with `apt` a registered section key and `literally-anything` not,
validation succeeds while logging a warning; the identical document with
`version: 2` fails with an `AutoinstallValidationError` whose key list and
message name `literally-anything` and do not name `apt`. -/
theorem version_dependent_strictness (sections : List String)
    (h1 : sections.contains "apt" = true)
    (h2 : sections.contains "literally-anything" = false) :
    (∃ w, validate_autoinstall
        [("version", JVal.num 1), ("apt", JVal.str "x"), ("literally-anything", JVal.str "y")]
        sections = .ok w ∧ w ≠ []) ∧
    (∃ f, validate_autoinstall
        [("version", JVal.num 2), ("apt", JVal.str "x"), ("literally-anything", JVal.str "y")]
        sections = .error f ∧
      f.unrecognizedKeys = ["literally-anything"] ∧
      f.error.message = "Unrecognized top-level key(s): literally-anything") := by
  have hmApt : "apt" ∈ sections := List.mem_of_elem_eq_true h1
  have hmLit : "literally-anything" ∉ sections := by
    intro hm
    simp [List.contains, List.elem_eq_mem, hm] at h2
  have hfil : ∀ doc : List (String × JVal),
      doc.map Prod.fst = ["version", "apt", "literally-anything"] →
      ((doc.map Prod.fst).filter
        (fun k => !((baseSchemaKeys ++ sections).contains k))) = ["literally-anything"] := by
    intro doc hdoc
    rw [hdoc]
    simp [baseSchemaKeys, List.filter, List.contains, List.elem_eq_mem, List.mem_append,
      hmApt, hmLit]
  constructor
  · have hf := hfil
      [("version", JVal.num 1), ("apt", JVal.str "x"), ("literally-anything", JVal.str "y")] rfl
    refine ⟨["Unrecognized top-level key(s): " ++ String.intercalate ", "
      ["literally-anything"]], ?_, by simp⟩
    simp only [validate_autoinstall]
    rw [hf]
    simp [configVersion, List.lookup]
  · have hf := hfil
      [("version", JVal.num 2), ("apt", JVal.str "x"), ("literally-anything", JVal.str "y")] rfl
    refine ⟨⟨AutoinstallValidationError.make "top-level keys"
      (some ("Unrecognized top-level key(s): " ++ String.intercalate ", "
        ["literally-anything"])), ["literally-anything"]⟩, ?_, rfl, by decide⟩
    simp only [validate_autoinstall]
    rw [hf]
    simp [configVersion, List.lookup]

/-- Witness for claim C2: the registered-section list `["apt"]`. -/
theorem version_dependent_strictness_witness :
    (∃ w, validate_autoinstall
        [("version", JVal.num 1), ("apt", JVal.str "x"), ("literally-anything", JVal.str "y")]
        ["apt"] = .ok w ∧ w ≠ []) ∧
    (∃ f, validate_autoinstall
        [("version", JVal.num 2), ("apt", JVal.str "x"), ("literally-anything", JVal.str "y")]
        ["apt"] = .error f ∧
      f.unrecognizedKeys = ["literally-anything"] ∧
      f.error.message = "Unrecognized top-level key(s): literally-anything") :=
  version_dependent_strictness ["apt"] (by decide) (by decide)

/-- Claim C4.  For a document `{version: 1, early-commands: [cmd]}` on disk,
the early-phase load reads exactly that document into memory; after the
command appends a fresh key to the on-disk document and the full-phase load
re-reads it, the in-memory config holds the appended key in addition to the
original keys, whose values are unchanged. -/
theorem early_commands_mutation_visibility
    (path : String) (cmds : JVal) (k : String) (v : JVal) (fs : DocFileSystem)
    (hdoc : List.lookup path fs = some [("version", JVal.num 1), ("early-commands", cmds)])
    (hk1 : k ≠ "version") (hk2 : k ≠ "early-commands") :
    load_autoinstall_config true fs path =
      some [("version", JVal.num 1), ("early-commands", cmds)] ∧
    load_autoinstall_config false (runAppendCommand fs path k v) path =
      some [("version", JVal.num 1), ("early-commands", cmds), (k, v)] ∧
    List.lookup k [("version", JVal.num 1), ("early-commands", cmds), (k, v)] = some v ∧
    List.lookup "version" [("version", JVal.num 1), ("early-commands", cmds), (k, v)] =
      some (JVal.num 1) ∧
    List.lookup "early-commands"
      [("version", JVal.num 1), ("early-commands", cmds), (k, v)] = some cmds := by
  have b1 : (k == "version") = false := beq_eq_false_iff_ne.mpr hk1
  have b2 : (k == "early-commands") = false := beq_eq_false_iff_ne.mpr hk2
  refine ⟨hdoc, ?_, ?_, ?_, ?_⟩
  · unfold runAppendCommand
    rw [hdoc]
    unfold load_autoinstall_config
    simp [List.lookup]
  · simp [List.lookup, b1, b2]
  · simp [List.lookup]
  · simp [List.lookup]

/-- Witness for claim C4: a root document gaining `stuff: things`. -/
theorem early_commands_mutation_visibility_witness :
    load_autoinstall_config true [("autoinstall.yaml", [("version", JVal.num 1), ("early-commands", JVal.str "cmd")])]
        "autoinstall.yaml" = some [("version", JVal.num 1), ("early-commands", JVal.str "cmd")] ∧
    load_autoinstall_config false
        (runAppendCommand [("autoinstall.yaml", [("version", JVal.num 1), ("early-commands", JVal.str "cmd")])]
          "autoinstall.yaml" "stuff" (JVal.str "things")) "autoinstall.yaml" =
      some [("version", JVal.num 1), ("early-commands", JVal.str "cmd"), ("stuff", JVal.str "things")] ∧
    List.lookup "stuff" [("version", JVal.num 1), ("early-commands", JVal.str "cmd"), ("stuff", JVal.str "things")] = some (JVal.str "things") ∧
    List.lookup "version" [("version", JVal.num 1), ("early-commands", JVal.str "cmd"), ("stuff", JVal.str "things")] = some (JVal.num 1) ∧
    List.lookup "early-commands" [("version", JVal.num 1), ("early-commands", JVal.str "cmd"), ("stuff", JVal.str "things")] = some (JVal.str "cmd") :=
  early_commands_mutation_visibility "autoinstall.yaml" (JVal.str "cmd") "stuff"
    (JVal.str "things") [("autoinstall.yaml", [("version", JVal.num 1), ("early-commands", JVal.str "cmd")])] rfl (by decide) (by decide)

theorem verify_autoinstall_ok (verbosity : Nat) :
    verify_autoinstall (.ok ()) (.ok ()) verbosity = ([SUCCESS_MSG], 0) := rfl

/-- Claim C8.  With the default `--check-link` off: the entry point returns
exit status 0 printing exactly the success sentinel precisely when
unwrapping (when expected) and both load phases complete without an
exception; every other outcome has exit status 1, and at the default
verbosities (≤ 2) prints exactly one cause message followed by the failure
sentinel — including the wrong-first-line and missing-autoinstall-key
failures of `parse_cloud_config`; no exception escapes the entry point. -/
theorem validation_entry_point_outcomes :
    ∀ (expect linkP : Bool) (inp : UserDataInput) (earlyLoad fullLoad : Except String Unit),
      (∀ verbosity : Nat,
        (scriptMain expect false linkP inp earlyLoad fullLoad verbosity =
            .ok ([SUCCESS_MSG], 0) ↔
          ((expect = true → ∃ a, parse_cloud_config inp = .ok a) ∧
            earlyLoad = .ok () ∧ fullLoad = .ok ()))) ∧
      (∀ verbosity out code,
        scriptMain expect false linkP inp earlyLoad fullLoad verbosity = .ok (out, code) →
        (code = 0 ∧ out = [SUCCESS_MSG]) ∨ code = 1) ∧
      (∀ verbosity out, verbosity ≤ 2 →
        scriptMain expect false linkP inp earlyLoad fullLoad verbosity = .ok (out, 1) →
        ∃ cause, out = [cause, FAILURE_MSG]) ∧
      (∀ verbosity, ∃ r,
        scriptMain expect false linkP inp earlyLoad fullLoad verbosity = .ok r) := by
  intro expect linkP inp earlyLoad fullLoad
  refine ⟨?_, ?_, ?_, ?_⟩
  · intro verbosity
    cases expect with
    | false =>
      rcases earlyLoad with e | ⟨⟩ <;> rcases fullLoad with f | ⟨⟩ <;>
        simp [scriptMain, verify_autoinstall, SUCCESS_MSG, FAILURE_MSG]
    | true =>
      rcases hp : parse_cloud_config inp with pe | pa <;>
        rcases earlyLoad with e | ⟨⟩ <;> rcases fullLoad with f | ⟨⟩ <;>
        simp [scriptMain, hp, verify_autoinstall, SUCCESS_MSG, FAILURE_MSG]
  · intro verbosity out code h
    cases expect with
    | false =>
      rcases earlyLoad with e | ⟨⟩ <;> rcases fullLoad with f | ⟨⟩ <;>
        simp [scriptMain, verify_autoinstall] at h <;> simp [h]
    | true =>
      rcases hp : parse_cloud_config inp with pe | pa <;>
        rcases earlyLoad with e | ⟨⟩ <;> rcases fullLoad with f | ⟨⟩ <;>
        simp [scriptMain, hp, verify_autoinstall] at h <;> simp [h]
  · intro verbosity out hv h
    have hv3 : ¬(verbosity > 2) := by omega
    cases expect with
    | false =>
      rcases earlyLoad with e | ⟨⟩ <;> rcases fullLoad with f | ⟨⟩ <;>
        simp [scriptMain, verify_autoinstall, hv3] at h <;>
        first
        | exact ⟨e, h.symm⟩
        | exact ⟨f, h.symm⟩
    | true =>
      rcases hp : parse_cloud_config inp with pe | pa <;>
        rcases earlyLoad with e | ⟨⟩ <;> rcases fullLoad with f | ⟨⟩ <;>
        simp [scriptMain, hp, verify_autoinstall, hv3] at h <;>
        first
        | exact ⟨pe, h.symm⟩
        | exact ⟨e, h.symm⟩
        | exact ⟨f, h.symm⟩
  · intro verbosity
    cases expect with
    | false =>
      rcases earlyLoad with e | ⟨⟩ <;> rcases fullLoad with f | ⟨⟩ <;>
        exact ⟨_, rfl⟩
    | true =>
      rcases hp : parse_cloud_config inp with pe | pa <;>
        rcases earlyLoad with e | ⟨⟩ <;> rcases fullLoad with f | ⟨⟩ <;>
        simp [scriptMain, hp, verify_autoinstall]

end Subiquity
